import Mathlib

/-!
Verification development for the chat-replies server
(`src/server/src`, in particular `messages/service.py`, `messages/schemas.py`,
`messages/router.py` and `models.py`).

The database and the service layer are shallowly embedded as pure functions
over an explicit `DB` state.  Ids (uuid4) and timestamps (`get_utc_now`) are
environment inputs and are passed explicitly to each operation; timestamps are
naturals, monotonically assigned at insertion time.  Fallible operations
return `Except Err` values, mutating ones return the post-transaction state
(rolled back to the input state on error).  SQL `ORDER BY created_at` leaves
the relative order of rows with equal `created_at` to the storage engine; that
choice is made explicit as a `tie : String → Nat` rank argument on every
ordered query.
-/

namespace ChatReplies

/-- Sender enum from `models.SenderType`: `USER` or `AI`. -/
inductive SenderType where
  | user
  | ai
deriving DecidableEq

/-- Row of the `messages` table (`models.Message`): id, owning chat id,
content, sender and creation timestamp. -/
structure Message where
  id : String
  chat_id : String
  content : String
  sender : SenderType
  created_at : Nat
deriving DecidableEq

/-- Row of the `message_reply_metadata` table (`models.MessageReplyMetadata`).
The `parent_id` column is declared `nullable=False` in `models.py`; the value
an in-flight row carries is modelled as an `Option` so that an INSERT that
never assigned the column (as `_create_message_reply` does) is representable,
with the NOT NULL constraint enforced at commit time. -/
structure MessageReplyMetadata where
  id : String
  message_id : String
  parent_id : Option String
  start_index : Int
  end_index : Int
  created_at : Nat
deriving DecidableEq

/-- Row of the `chats` table (`models.Chat`), restricted to what the message
service reads. -/
structure Chat where
  id : String
  title : String
deriving DecidableEq

/-- Committed database state: the three tables, each in insertion order. -/
structure DB where
  chats : List Chat
  messages : List Message
  reply_metadata : List MessageReplyMetadata
deriving DecidableEq

/-- Errors the embedded operations can surface.  The first four mirror the
`HTTPException` subclasses of `exceptions.py`; `backendError` stands for a
failure of the external generation backend mid-stream; `attributeError` and
`indexError` are Python runtime errors the service code can raise. -/
inductive Err where
  | chatNotFound (chat_id : String)
  | messageNotFound (message_id : String)
  | invalidReplyRange (start_index end_index : Int)
  | databaseError
  | backendError
  | attributeError (attr : String)
  | indexError
deriving DecidableEq

/-- HTTP status carried by each error, per `exceptions.py` (Python runtime
errors surface as 500 through the framework). -/
def Err.status : Err → Nat
  | .chatNotFound _ => 404
  | .messageNotFound _ => 404
  | .invalidReplyRange _ _ => 400
  | .databaseError => 500
  | .backendError => 500
  | .attributeError _ => 500
  | .indexError => 500

/-- Python `str.strip()`: drop whitespace from both ends. -/
def pyStrip (s : String) : String :=
  ⟨((s.data.dropWhile Char.isWhitespace).reverse.dropWhile Char.isWhitespace).reverse⟩

/-- Python slice `s[:n]` for `n ≥ 0`. -/
def pyPrefix (n : Nat) (s : String) : String :=
  ⟨s.data.take n⟩

/-- Python slice `s[-n:]` for `n ≥ 1`.  Natural subtraction saturates at zero
exactly like the Python clamp for strings shorter than `n`. -/
def pySuffix (n : Nat) (s : String) : String :=
  ⟨s.data.drop (s.length - n)⟩

/-- Python slice `s[a:b]` with arbitrary (possibly negative) integer bounds. -/
def pySlice (s : String) (a b : Int) : String :=
  let n : Int := s.length
  let clamp : Int → Nat := fun i => (if i < 0 then max (n + i) 0 else min i n).toNat
  ⟨(s.data.take (clamp b)).drop (clamp a)⟩

/-- Schema `MessageCreate` (`messages/schemas.py`): content and sender of a
plain send. -/
structure MessageCreate where
  content : String
  sender : SenderType
deriving DecidableEq

/-- Schema `MessageReplyMetadataCreate`: the requested quote range and the
parent message id. -/
structure MessageReplyMetadataCreate where
  start_index : Int
  end_index : Int
  parent_id : String
deriving DecidableEq

/-- Validation method `validate` of `MessageReplyMetadataBase`
(`messages/schemas.py` lines 19-39): `validate_range` rejects
`start_index >= end_index`, then `end_index > len(content)` and
`start_index < 0` are rejected, each with `InvalidReplyRangeError`. -/
def MessageReplyMetadataCreate.validate (md : MessageReplyMetadataCreate)
    (message_content : String) : Except Err Unit :=
  if md.start_index ≥ md.end_index then
    .error (.invalidReplyRange md.start_index md.end_index)
  else if md.end_index > (message_content.length : Int) then
    .error (.invalidReplyRange md.start_index md.end_index)
  else if md.start_index < 0 then
    .error (.invalidReplyRange md.start_index md.end_index)
  else .ok ()

/-- Schema `MessageReplyCreate`: reply content, sender and reply metadata. -/
structure MessageReplyCreate where
  content : String
  sender : SenderType
  reply_metadata : MessageReplyMetadataCreate
deriving DecidableEq

/-- Schema `MessageContextRepresentation` (`messages/schemas.py`).  It extends
`MessageBase`, whose only fields are `content` and `sender`.  The service
passes an extra `created_at=` keyword when constructing it, but pydantic
models silently drop unknown keywords under the default `extra` behaviour, so
the constructed value carries no timestamp. -/
structure MessageContextRepresentation where
  content : String
  sender : SenderType
deriving DecidableEq

/-- Attribute access `message_chain[-1].created_at` performed by the backfill
step of `_get_reply_chain` (line 436): `MessageContextRepresentation` has no
`created_at` attribute, so Python raises `AttributeError`. -/
def MessageContextRepresentation.attr_created_at
    (_ : MessageContextRepresentation) : Except Err Nat :=
  .error (.attributeError ("created_at"))

/-- Reply-metadata item built inline by `get_chat_messages`
(`messages/service.py` lines 218-224) with keys `id`, `message_id`,
`start_index`, `end_index`, `created_at`.  Note there is no `parent_id` key. -/
structure MessageReplyMetadataDict where
  id : String
  message_id : String
  start_index : Int
  end_index : Int
  created_at : Nat
deriving DecidableEq

/-- Attribute access `msg.reply_metadata.parent_id` performed by the chain
walk (line 428): the item built by `get_chat_messages` has no `parent_id`
entry, so the lookup raises `AttributeError`. -/
def MessageReplyMetadataDict.attr_parent_id (_ : MessageReplyMetadataDict) :
    Except Err String :=
  .error (.attributeError ("parent_id"))

/-- Per-message item returned by `get_chat_messages`
(`messages/service.py` lines 226-235): the message fields plus the optional
reply-metadata item. -/
structure MessageResponse where
  id : String
  chat_id : String
  content : String
  sender : SenderType
  created_at : Nat
  reply_metadata : Option MessageReplyMetadataDict
deriving DecidableEq

/-- Schema `StreamChunk` (`messages/schemas.py`): one outward streaming
chunk. -/
structure StreamChunk where
  content : String
  is_final : Bool
  message_id : Option String
deriving DecidableEq

/-- Runtime value produced by `MessageService.get_chat_messages`: a plain
Python `list`.  `_get_reply_chain` (line 399-401) instead treats the value as
an object carrying a `.messages` attribute (the shape of
`MessagesListResponse`); attribute lookup on a bare list raises
`AttributeError`. -/
inductive PyMessagesValue where
  | pyList (items : List MessageResponse)
  | messagesListResponse (messages : List MessageResponse)
deriving DecidableEq

/-- Attribute lookup `.messages` on the value returned by
`get_chat_messages`. -/
def PyMessagesValue.attr_messages : PyMessagesValue → Except Err (List MessageResponse)
  | .pyList _ => .error (.attributeError ("messages"))
  | .messagesListResponse ms => .ok ms

/-- True when the chat id exists, per `_get_chat`. -/
def chatExists (db : DB) (chat_id : String) : Bool :=
  db.chats.any (fun c => c.id == chat_id)

/-- All committed messages of one chat, in insertion order (the WHERE clause
of every message query). -/
def chatMessages (db : DB) (chat_id : String) : List Message :=
  db.messages.filter (fun m => m.chat_id == chat_id)

/-- Metadata rows attached to one message (the `reply_metadata`
relationship). -/
def replyMetadataOf (db : DB) (message_id : String) : List MessageReplyMetadata :=
  db.reply_metadata.filter (fun r => r.message_id == message_id)

/-- Row order produced by `ORDER BY created_at ASC`.  SQL fixes the order only
up to ties on `created_at`; the storage-chosen rank `tie` breaks ties, making
the underspecification explicit. -/
def createdAtAsc (tie : String → Nat) (a b : Message) : Prop :=
  a.created_at < b.created_at ∨ (a.created_at = b.created_at ∧ tie a.id ≤ tie b.id)

instance (tie : String → Nat) : DecidableRel (createdAtAsc tie) := fun a b => by
  unfold createdAtAsc
  infer_instance

/-- Row order produced by `ORDER BY created_at DESC`, ties again broken by the
storage-chosen rank. -/
def createdAtDesc (tie : String → Nat) (a b : Message) : Prop :=
  b.created_at < a.created_at ∨ (a.created_at = b.created_at ∧ tie a.id ≤ tie b.id)

instance (tie : String → Nat) : DecidableRel (createdAtDesc tie) := fun a b => by
  unfold createdAtDesc
  infer_instance

/-- Result list of a message SELECT with `ORDER BY created_at` in the
requested direction. -/
def orderByCreatedAt (tie : String → Nat) (reverse : Bool) (msgs : List Message) :
    List Message :=
  if reverse then List.insertionSort (createdAtDesc tie) msgs
  else List.insertionSort (createdAtAsc tie) msgs

/-- Service method `get_message`: select the message with the given id inside
the given chat; `MessageNotFoundError` when absent. -/
def get_message (db : DB) (chat_id message_id : String) : Except Err Message :=
  match (db.messages.filter (fun m => m.id == message_id && m.chat_id == chat_id)).head? with
  | some m => .ok m
  | none => .error (.messageNotFound message_id)

/-- Response item built by `get_chat_messages` for one row: optional reply
metadata is inlined, taking the first relationship entry when present. -/
def toMessageResponse (db : DB) (m : Message) : MessageResponse :=
  { id := m.id
    chat_id := m.chat_id
    content := m.content
    sender := m.sender
    created_at := m.created_at
    reply_metadata :=
      match replyMetadataOf db m.id with
      | [] => none
      | md :: _ => some ⟨md.id, md.message_id, md.start_index, md.end_index, md.created_at⟩ }

/-- Service method `get_chat_messages` (`messages/service.py` lines 173-237):
verify the chat, then SELECT the chat messages ordered by `created_at`
(descending when `reverse`), OFFSET `skip`, LIMIT `limit`, and map each row to
its response item.  The returned value is a plain list. -/
def get_chat_messages (tie : String → Nat) (db : DB) (chat_id : String)
    (skip limit : Nat) (reverse : Bool) : Except Err (List MessageResponse) :=
  if chatExists db chat_id then
    .ok ((((orderByCreatedAt tie reverse (chatMessages db chat_id)).drop skip).take limit).map
      (toMessageResponse db))
  else .error (.chatNotFound chat_id)

/-- INSERT plus COMMIT of one `Message` row; a constraint violation
(`IntegrityError`, modelled as a primary-key collision) rolls back and raises
`DatabaseError`, as in `_create_message`. -/
def insertMessage (db : DB) (m : Message) : DB × Except Err Message :=
  if db.messages.any (fun x => x.id == m.id) then (db, .error .databaseError)
  else ({ db with messages := db.messages ++ [m] }, .ok m)

/-- Service method `_create_message`: verify the chat exists, then insert and
commit the new message row.  The fresh uuid and the `get_utc_now` timestamp
are environment inputs, passed explicitly. -/
def _create_message (db : DB) (chat_id : String) (message_data : MessageCreate)
    (new_id : String) (now : Nat) : DB × Except Err Message :=
  if chatExists db chat_id then
    insertMessage db ⟨new_id, chat_id, message_data.content, message_data.sender, now⟩
  else (db, .error (.chatNotFound chat_id))

/-- COMMIT of the reply transaction: the reply `Message` row and its
`MessageReplyMetadata` row are committed together; any constraint violation
(`IntegrityError`: primary-key collision, or the NOT NULL constraint on
`message_reply_metadata.parent_id`) rolls the whole transaction back and
raises `DatabaseError`. -/
def commitReply (db : DB) (m : Message) (md : MessageReplyMetadata) :
    DB × Except Err Message :=
  if db.messages.any (fun x => x.id == m.id)
      || db.reply_metadata.any (fun x => x.id == md.id)
      || md.parent_id.isNone then
    (db, .error .databaseError)
  else
    ({ db with
        messages := db.messages ++ [m]
        reply_metadata := db.reply_metadata ++ [md] }, .ok m)

/-- Service method `_create_message_reply` (`messages/service.py` lines
99-149): verify the chat, fetch the replied-to message, validate the range
against its content, then insert the reply `Message` and its metadata row in
one transaction.  The metadata instance is constructed with exactly the
keywords passed at lines 137-141 — `message_id`, `start_index`, `end_index` —
so its `parent_id` is never assigned. -/
def _create_message_reply (db : DB) (chat_id message_id : String)
    (reply_data : MessageReplyCreate) (reply_id md_id : String) (now : Nat) :
    DB × Except Err Message :=
  if chatExists db chat_id then
    match get_message db chat_id message_id with
    | .error e => (db, .error e)
    | .ok original_message =>
      match reply_data.reply_metadata.validate original_message.content with
      | .error e => (db, .error e)
      | .ok _ =>
        commitReply db
          ⟨reply_id, chat_id, reply_data.content, reply_data.sender, now⟩
          ⟨md_id, reply_id, none, reply_data.reply_metadata.start_index,
            reply_data.reply_metadata.end_index, now⟩
  else (db, .error (.chatNotFound chat_id))

/-- Service method `_get_last_chat_messages` (`messages/service.py` lines
323-348): verify the chat, then SELECT its messages ORDER BY `created_at`
ASC LIMIT `limit` and map them to context representations.  The ascending
order combined with LIMIT selects the oldest `limit` rows. -/
def _get_last_chat_messages (tie : String → Nat) (db : DB) (chat_id : String)
    (limit : Nat) : Except Err (List MessageContextRepresentation) :=
  if chatExists db chat_id then
    .ok (((orderByCreatedAt tie false (chatMessages db chat_id)).take limit).map
      (fun m => ⟨m.content, m.sender⟩))
  else .error (.chatNotFound chat_id)

/-- Generator `_stream_ai_response`: forward the backend chunks, yielding only
those with non-empty content (Python string truthiness). -/
def _stream_ai_response (backend_chunks : List String) : List String :=
  backend_chunks.filter (fun s => s != "")

/-- Truncation applied to `referenced_text` and to `reply_text` in
`reply_to_message_with_streaming_response` (lines 493-499, two identical
inline blocks): text longer than 100 characters is replaced by its first 50
characters, an ellipsis, and its last 50 characters. -/
def truncateForNote (s : String) : String :=
  if s.length > 100 then pyPrefix 50 s ++ "..." ++ pySuffix 50 s else s

/-- How the incremental fragment source of a streaming invocation ends:
normal exhaustion, or a failure/interruption raised after the consumer loop
received `k` fragments. -/
inductive StreamOutcome where
  | completed
  | interrupted (k : Nat)
deriving DecidableEq

/-- Observable result of one streaming invocation: the chunks the generator
yielded, the database state after the guaranteed-run persistence step, and
the exception (if any) propagating out of the generator. -/
structure StreamResult where
  chunks : List StreamChunk
  db : DB
  error : Option Err
deriving DecidableEq

/-- Fragments the consumer loop receives from the source before it ends. -/
def receivedFragments (frags : List String) : StreamOutcome → List String
  | .completed => frags
  | .interrupted k => frags.take k

/-- Guaranteed-run persistence step in the `finally` block (lines 290-308 and
530-547): commit one AI message with the trimmed accumulated text under the
pre-allocated id when the text is non-empty (a constraint violation rolls back
and raises `DatabaseError`); roll back without writing when it is empty. -/
def persistFinally (db : DB) (chat_id message_id trimmed : String) (now : Nat) :
    DB × Option Err :=
  if trimmed ≠ "" then
    if db.messages.any (fun x => x.id == message_id) then (db, some .databaseError)
    else ({ db with messages := db.messages ++ [⟨message_id, chat_id, trimmed, .ai, now⟩] },
      none)
  else (db, none)

/-- Stream-accumulate-persist block shared verbatim by
`create_message_with_streaming_response` (lines 282-311) and
`reply_to_message_with_streaming_response` (lines 522-550): yield one
non-final chunk per received fragment while accumulating, run the `finally`
persistence step once the source has ended in either way, then yield the
final terminator chunk when the loop finished normally.  An exception from
the loop propagates after the `finally` block ran, and is replaced by
`DatabaseError` when the persistence commit itself fails.  The terminator
selection and the escaping exception are factored into `terminatorChunks` and
`escapedError`; `streamAndPersist` below is the block itself. -/
def terminatorChunks (message_id : String) : StreamOutcome → Option Err → List StreamChunk
  | .completed, none => [⟨"", true, some message_id⟩]
  | _, _ => []

/-- Exception propagating out of the generator once the `finally` block ran:
none when the source was exhausted and persistence succeeded; the persistence
error when the commit failed; the backend failure otherwise (Python replaces
an in-flight exception by one raised in `finally`). -/
def escapedError : StreamOutcome → Option Err → Option Err
  | .completed, none => none
  | .completed, some e => some e
  | .interrupted _, none => some Err.backendError
  | .interrupted _, some e => some e

def streamAndPersist (db : DB) (chat_id message_id : String)
    (frags : List String) (outcome : StreamOutcome) (now : Nat) : StreamResult :=
  let received := receivedFragments frags outcome
  let body := received.map (fun f => StreamChunk.mk f false (some message_id))
  let trimmed := pyStrip (String.join received)
  let persisted := persistFinally db chat_id message_id trimmed now
  { chunks := body ++ terminatorChunks message_id outcome persisted.2
    db := persisted.1
    error := escapedError outcome persisted.2 }

/-- Rows the persistence step appends for a given source ending: one AI row
with the trimmed accumulated text when non-empty, nothing otherwise. -/
def aiRowIfAny (chat_id message_id : String) (frags : List String)
    (outcome : StreamOutcome) (now : Nat) : List Message :=
  if pyStrip (String.join (receivedFragments frags outcome)) = "" then []
  else [⟨message_id, chat_id, pyStrip (String.join (receivedFragments frags outcome)),
    .ai, now⟩]

/-- Service generator `create_message_with_streaming_response`
(`messages/service.py` lines 254-311): create the user message, build the
context from `_get_last_chat_messages` (handed to the external generation
backend, whose reply arrives as `backend_chunks`), then stream and persist
under the pre-allocated AI message id. -/
def create_message_with_streaming_response (tie : String → Nat) (db : DB)
    (chat_id : String) (user_message_data : MessageCreate)
    (user_id ai_id : String) (now_user now_ai : Nat)
    (backend_chunks : List String) (outcome : StreamOutcome) : StreamResult :=
  match _create_message db chat_id user_message_data user_id now_user with
  | (db1, .error e) => ⟨[], db1, some e⟩
  | (db1, .ok _) =>
    match _get_last_chat_messages tie db1 chat_id 10 with
    | .error e => ⟨[], db1, some e⟩
    | .ok _recent_messages =>
      streamAndPersist db1 chat_id ai_id (_stream_ai_response backend_chunks) outcome now_ai

/-- One pass of the paging while-loop of `_get_reply_chain` (lines 396-431).
`fuel` bounds the recursion to make the function total; the driver passes more
fuel than the loop can consume, since a page is empty once `skip` reaches the
chat size and the loop stops at the first empty page. -/
def replyChainLoop (tie : String → Nat) (db : DB) (chat_id : String) :
    Nat → Nat → Option String → List MessageResponse →
    List MessageContextRepresentation → Except Err (List MessageContextRepresentation)
  | 0, _, _, _, message_chain => .ok message_chain
  | fuel + 1, skip, current, id_to_message, message_chain =>
    match current with
    | none => .ok message_chain
    | some current_message_id =>
      match get_chat_messages tie db chat_id skip 10 true with
      | .error e => .error e
      | .ok page_value =>
        match (PyMessagesValue.pyList page_value).attr_messages with
        | .error e => .error e
        | .ok page =>
          if page.isEmpty then .ok message_chain
          else
            let id_to_message2 := id_to_message ++ page
            match id_to_message2.find? (fun r => r.id == current_message_id) with
            | none =>
              replyChainLoop tie db chat_id fuel (skip + 10) (some current_message_id)
                id_to_message2 message_chain
            | some msg =>
              let content :=
                match msg.reply_metadata with
                | some md => pySlice msg.content md.start_index md.end_index
                | none => msg.content
              let message_chain2 := message_chain ++ [⟨content, msg.sender⟩]
              match msg.reply_metadata with
              | some md =>
                match md.attr_parent_id with
                | .error e => .error e
                | .ok pid =>
                  replyChainLoop tie db chat_id fuel (skip + 10) (some pid)
                    id_to_message2 message_chain2
              | none =>
                replyChainLoop tie db chat_id fuel (skip + 10) none
                  id_to_message2 message_chain2

/-- Service method `_get_reply_chain` (`messages/service.py` lines 377-461):
verify the chat, walk the reply chain by paging newest-first, backfill with
messages strictly older than the oldest chain entry when fewer than
`min_length` turns were collected (`now` is the `datetime.now()` fallback used
when the chain is empty), and return the chain in chronological order. -/
def _get_reply_chain (tie : String → Nat) (db : DB) (chat_id message_id : String)
    (min_length : Nat) (now : Nat) : Except Err (List MessageContextRepresentation) :=
  if chatExists db chat_id then
    match replyChainLoop tie db chat_id ((chatMessages db chat_id).length + 1) 0
        (some message_id) [] [] with
    | .error e => .error e
    | .ok message_chain =>
      if message_chain.length < min_length then
        match (match message_chain.getLast? with
          | some ctx => ctx.attr_created_at
          | none => .ok now) with
        | .error e => .error e
        | .ok oldest_ts =>
          let needed := min_length - message_chain.length
          let backfill := (orderByCreatedAt tie true
            ((chatMessages db chat_id).filter
              (fun m => decide (m.created_at < oldest_ts)))).take needed
          .ok ((message_chain ++ backfill.map
            (fun m => ({ content := m.content, sender := m.sender } :
              MessageContextRepresentation))).reverse)
      else .ok message_chain.reverse
  else .error (.chatNotFound chat_id)

/-- Service generator `reply_to_message_with_streaming_response`
(`messages/service.py` lines 463-550): create the reply with its metadata,
fetch the replied-to message, assemble the reply chain, build the truncated
side-channel note (consumed by the external generation backend together with
the chain and the appended original message), then stream and persist under
the pre-allocated AI message id. -/
def reply_to_message_with_streaming_response (tie : String → Nat) (db : DB)
    (chat_id message_id : String) (reply_data : MessageReplyCreate)
    (reply_id md_id ai_id : String) (now_reply now_ai : Nat)
    (backend_chunks : List String) (outcome : StreamOutcome) : StreamResult :=
  match _create_message_reply db chat_id message_id reply_data reply_id md_id now_reply with
  | (db1, .error e) => ⟨[], db1, some e⟩
  | (db1, .ok _) =>
    match get_message db1 chat_id message_id with
    | .error e => ⟨[], db1, some e⟩
    | .ok _original_message =>
      match _get_reply_chain tie db1 chat_id message_id 10 now_reply with
      | .error e => ⟨[], db1, some e⟩
      | .ok message_chain =>
        match message_chain.getLast? with
        | none => ⟨[], db1, some .indexError⟩
        | some last_turn =>
          let _referenced_text := truncateForNote last_turn.content
          let _reply_text := truncateForNote reply_data.content
          streamAndPersist db1 chat_id ai_id (_stream_ai_response backend_chunks)
            outcome now_ai

/-- One Server-Sent-Events frame as emitted by the router
(`messages/router.py`): either a serialized chunk, or the error frame built in
the `except` clause (whose JSON carries `is_final: true`). -/
inductive SSEFrame where
  | data (chunk : StreamChunk)
  | errorFrame (e : Err)
deriving DecidableEq

/-- Whether a frame signals the end of the stream to the consumer. -/
def SSEFrame.isFinal : SSEFrame → Bool
  | .data c => c.is_final
  | .errorFrame _ => true

/-- Frames written to the wire for one invocation: every chunk the service
generator yielded, then — when an exception escaped the generator — the single
error frame from the `except` clause of `generate_sse_stream` /
`generate_reply_sse_stream`. -/
def sseFrames (r : StreamResult) : List SSEFrame :=
  r.chunks.map SSEFrame.data ++ (match r.error with
    | some e => [SSEFrame.errorFrame e]
    | none => [])

/-- Router generator `generate_sse_stream` (`messages/router.py` lines
12-22). -/
def generate_sse_stream (tie : String → Nat) (db : DB) (chat_id : String)
    (user_message_data : MessageCreate) (user_id ai_id : String)
    (now_user now_ai : Nat) (backend_chunks : List String)
    (outcome : StreamOutcome) : List SSEFrame :=
  sseFrames (create_message_with_streaming_response tie db chat_id user_message_data
    user_id ai_id now_user now_ai backend_chunks outcome)

/-- Router generator `generate_reply_sse_stream` (`messages/router.py` lines
98-108). -/
def generate_reply_sse_stream (tie : String → Nat) (db : DB)
    (chat_id message_id : String) (reply_data : MessageReplyCreate)
    (reply_id md_id ai_id : String) (now_reply now_ai : Nat)
    (backend_chunks : List String) (outcome : StreamOutcome) : List SSEFrame :=
  sseFrames (reply_to_message_with_streaming_response tie db chat_id message_id
    reply_data reply_id md_id ai_id now_reply now_ai backend_chunks outcome)

/-- One page of the chat listing, as the pagination claims read it (empty on
error). -/
def pageAt (tie : String → Nat) (db : DB) (chat_id : String) (skip limit : Nat) :
    List MessageResponse :=
  ((get_chat_messages tie db chat_id skip limit false).toOption).getD []

/-- Full ascending listing of a chat under one fixed storage order. -/
def fullListing (tie : String → Nat) (db : DB) (chat_id : String) :
    List MessageResponse :=
  (orderByCreatedAt tie false (chatMessages db chat_id)).map (toMessageResponse db)

instance exceptDecEq {ε α : Type} [DecidableEq ε] [DecidableEq α] :
    DecidableEq (Except ε α) := fun x y =>
  match x, y with
  | .ok a, .ok b =>
    match decEq a b with
    | isTrue h => isTrue (h ▸ rfl)
    | isFalse h => isFalse (fun hh => h (Except.ok.inj hh))
  | .error a, .error b =>
    match decEq a b with
    | isTrue h => isTrue (h ▸ rfl)
    | isFalse h => isFalse (fun hh => h (Except.error.inj hh))
  | .ok _, .error _ => isFalse (fun hh => Except.noConfusion hh)
  | .error _, .ok _ => isFalse (fun hh => Except.noConfusion hh)

/-- Storage order that ranks every id equally (any fixed choice). -/
def tie0 : String → Nat := fun _ => 0

/-- Storage order that places id `a` before id `b` on ties. -/
def tieA : String → Nat := fun i => if i = "a" then 0 else 1

/-- Storage order that places id `b` before id `a` on ties. -/
def tieB : String → Nat := fun i => if i = "b" then 0 else 1

/-- Chat with one user message, the parent of the reply request of
`test_reply_to_message`. -/
def dbC2 : DB :=
  ⟨[⟨"c1", "Test Chat"⟩], [⟨"m1", "c1", "Original message", .user, 1⟩], []⟩

/-- Chat with a single message, target of a reply-chain walk. -/
def dbC3w : DB :=
  ⟨[⟨"c", "Test Chat"⟩], [⟨"m1", "c", "Hello", .user, 1⟩], []⟩

/-- Chat holding eleven messages with distinct increasing timestamps. -/
def dbC4 : DB :=
  ⟨[⟨"c", "Test Chat"⟩],
   [⟨"m01", "c", "Message 1", .user, 1⟩,
    ⟨"m02", "c", "Message 2", .user, 2⟩,
    ⟨"m03", "c", "Message 3", .user, 3⟩,
    ⟨"m04", "c", "Message 4", .user, 4⟩,
    ⟨"m05", "c", "Message 5", .user, 5⟩,
    ⟨"m06", "c", "Message 6", .user, 6⟩,
    ⟨"m07", "c", "Message 7", .user, 7⟩,
    ⟨"m08", "c", "Message 8", .user, 8⟩,
    ⟨"m09", "c", "Message 9", .user, 9⟩,
    ⟨"m10", "c", "Message 10", .user, 10⟩,
    ⟨"m11", "c", "Message 11", .user, 11⟩], []⟩

/-- Chat with one short message, parent of an out-of-bounds reply request. -/
def dbC5 : DB :=
  ⟨[⟨"c1", "Test Chat"⟩], [⟨"m1", "c1", "Short", .user, 1⟩], []⟩

/-- Empty chat used to exercise a full streaming invocation. -/
def dbC1w : DB := ⟨[⟨"c", "Test Chat"⟩], [], []⟩

/-- Chat with three messages, reply-chain requested from the newest one. -/
def dbC7 : DB :=
  ⟨[⟨"c", "Test Chat"⟩],
   [⟨"m1", "c", "First message", .user, 1⟩,
    ⟨"m2", "c", "Second message", .ai, 2⟩,
    ⟨"m3", "c", "Third message", .user, 3⟩], []⟩

/-- Text of 101 identical characters, just above the truncation threshold. -/
def longText : String := ⟨List.replicate 101 ('a')⟩

/-- First message of the tied pair in `dbC9`. -/
def msgA : Message := ⟨"a", "c", "first", .user, 5⟩

/-- Second message of the tied pair in `dbC9`. -/
def msgB : Message := ⟨"b", "c", "second", .user, 5⟩

/-- Chat with two messages sharing one `created_at` value. -/
def dbC9 : DB := ⟨[⟨"c", "Test Chat"⟩], [msgA, msgB], []⟩

/-- Chat with three messages with distinct timestamps, for the partition
witness. -/
def dbC9w : DB :=
  ⟨[⟨"c", "Test Chat"⟩],
   [⟨"x1", "c", "one", .user, 1⟩,
    ⟨"x2", "c", "two", .ai, 2⟩,
    ⟨"x3", "c", "three", .user, 3⟩], []⟩

/-- Chat whose two stored metadata rows make the parent links cyclic:
each message is recorded as replying to the other. -/
def dbC10 : DB :=
  ⟨[⟨"c", "Test Chat"⟩],
   [⟨"ma", "c", "alpha", .user, 1⟩, ⟨"mb", "c", "beta", .ai, 2⟩],
   [⟨"r1", "ma", some "mb", 0, 1, 3⟩, ⟨"r2", "mb", some "ma", 0, 1, 3⟩]⟩

/-- Helper: an id absent from a message list makes the SQL any-check false. -/
theorem any_id_eq_false (l : List Message) (i : String)
    (h : ∀ m ∈ l, m.id ≠ i) : l.any (fun x => x.id == i) = false := by
  rw [List.any_eq_false]
  intro m hm
  simpa using h m hm

/-- Helper: the database state after the guaranteed-run persistence step is
the input state extended by exactly the rows of `aiRowIfAny`, for every way
the fragment source can end, provided the pre-allocated id is fresh. -/
theorem streamAndPersist_messages (db : DB) (chat_id message_id : String)
    (frags : List String) (outcome : StreamOutcome) (now : Nat)
    (hfresh : ∀ m ∈ db.messages, m.id ≠ message_id) :
    (streamAndPersist db chat_id message_id frags outcome now).db.messages
      = db.messages ++ aiRowIfAny chat_id message_id frags outcome now := by
  have hdb : (streamAndPersist db chat_id message_id frags outcome now).db
      = (persistFinally db chat_id message_id
          (pyStrip (String.join (receivedFragments frags outcome))) now).1 := rfl
  have hany := any_id_eq_false db.messages message_id hfresh
  rw [hdb]
  by_cases h : pyStrip (String.join (receivedFragments frags outcome)) = "" <;>
    simp [persistFinally, aiRowIfAny, h, hany]

/-- C1: for every streaming invocation, once the incremental fragment source
has ended — by exhaustion or by any failure after `k` fragments — the
persistence step runs exactly once: the trimmed accumulated text, when
non-empty, is committed as exactly one new AI `Message` under the
pre-allocated id, and no row is written when it is empty.  Stated first for
the stream-and-persist block both invocation kinds run after their source
ends, then for the full send invocation around it. -/
theorem C1_persist_exactly_once :
    (∀ (db : DB) (chat_id message_id : String) (frags : List String)
        (outcome : StreamOutcome) (now : Nat),
      (∀ m ∈ db.messages, m.id ≠ message_id) →
      (streamAndPersist db chat_id message_id frags outcome now).db.messages
        = db.messages ++ aiRowIfAny chat_id message_id frags outcome now) ∧
    (∀ (tie : String → Nat) (db : DB) (chat_id : String)
        (user_message_data : MessageCreate) (user_id ai_id : String)
        (now_user now_ai : Nat) (backend_chunks : List String)
        (outcome : StreamOutcome),
      chatExists db chat_id = true →
      (∀ m ∈ db.messages, m.id ≠ user_id) →
      (∀ m ∈ db.messages, m.id ≠ ai_id) →
      user_id ≠ ai_id →
      (create_message_with_streaming_response tie db chat_id user_message_data
          user_id ai_id now_user now_ai backend_chunks outcome).db.messages
        = (db.messages ++ [⟨user_id, chat_id, user_message_data.content,
            user_message_data.sender, now_user⟩])
          ++ aiRowIfAny chat_id ai_id (_stream_ai_response backend_chunks)
              outcome now_ai) := by
  constructor
  · exact streamAndPersist_messages
  · intro tie db chat_id ud uid aid nU nA bc outcome hchat huid haid hne
    have hanyu := any_id_eq_false db.messages uid huid
    have h1 : _create_message db chat_id ud uid nU
        = ({ db with messages := db.messages ++ [⟨uid, chat_id, ud.content, ud.sender, nU⟩] },
          .ok ⟨uid, chat_id, ud.content, ud.sender, nU⟩) := by
      unfold _create_message insertMessage
      simp [hchat, hanyu]
    have hchat1 : chatExists
        { db with messages := db.messages ++ [⟨uid, chat_id, ud.content, ud.sender, nU⟩] }
        chat_id = true := hchat
    have hfresh1 : ∀ m ∈ (db.messages ++ [(⟨uid, chat_id, ud.content, ud.sender, nU⟩ : Message)]),
        m.id ≠ aid := by
      intro m hm
      rcases List.mem_append.mp hm with hmem | hmem
      · exact haid m hmem
      · rw [List.mem_singleton.mp hmem]
        exact hne
    unfold create_message_with_streaming_response
    simp only [h1]
    unfold _get_last_chat_messages
    simp only [hchat1, eq_self_iff_true, if_true]
    exact streamAndPersist_messages _ chat_id aid (_stream_ai_response bc) outcome nA hfresh1

/-- Witness for C1: an interrupted invocation on a concrete chat persists the
partial accumulated fragment. -/
theorem C1_persist_exactly_once_witness :
    (create_message_with_streaming_response tie0 dbC1w ("c") ⟨"Hello", .user⟩
        ("u1") ("a1") 1 2 ["Hi", " there"] (.interrupted 1)).db.messages
      = (dbC1w.messages ++ [⟨"u1", "c", "Hello", .user, 1⟩])
        ++ aiRowIfAny ("c") ("a1") (_stream_ai_response ["Hi", " there"])
            (.interrupted 1) 2 :=
  C1_persist_exactly_once.2 tie0 dbC1w ("c") ⟨"Hello", .user⟩ ("u1") ("a1") 1 2
    ["Hi", " there"] (.interrupted 1) (by decide) (by decide) (by decide) (by decide)

/-- C2 (code bug): the valid reply request of the repository's own
`test_reply_to_message` — quote range (0, 8) into the parent content, parent id
supplied — passes validation, yet `_create_message_reply` ends in
`DatabaseError` with the database unchanged, because the metadata row is
constructed without its NOT NULL `parent_id` and the commit is rolled back. -/
theorem C2_reply_never_persisted :
    ((⟨0, 8, "m1"⟩ : MessageReplyMetadataCreate).validate ("Original message")
      = .ok ()) ∧
    _create_message_reply dbC2 ("c1") ("m1")
        ⟨"Reply message", .ai, ⟨0, 8, "m1"⟩⟩ ("r1") ("md1") 2
      = (dbC2, .error .databaseError) := by decide

/-- C3 (code bug): whenever the chat exists, the reply-chain walk raises
`AttributeError` at its very first page fetch — `get_chat_messages` returns a
plain list and the walk reads a `.messages` attribute from it — so no chain
is ever assembled, for every target message and every storage order. -/
theorem C3_reply_chain_walk_raises (tie : String → Nat) (db : DB)
    (chat_id message_id : String) (min_length now : Nat)
    (hchat : chatExists db chat_id = true) :
    _get_reply_chain tie db chat_id message_id min_length now
      = .error (.attributeError ("messages")) := by
  have hloop : replyChainLoop tie db chat_id ((chatMessages db chat_id).length + 1) 0
      (some message_id) [] [] = .error (.attributeError ("messages")) := by
    unfold replyChainLoop
    simp [get_chat_messages, hchat, PyMessagesValue.attr_messages]
  unfold _get_reply_chain
  rw [hchat, hloop]
  rfl

/-- Witness for C3 at a concrete one-message chat. -/
theorem C3_reply_chain_walk_raises_witness :
    _get_reply_chain tie0 dbC3w ("c") ("m1") 10 5
      = .error (.attributeError ("messages")) :=
  C3_reply_chain_walk_raises tie0 dbC3w ("c") ("m1") 10 5 (by decide)

/-- C4 (code bug): with eleven messages in the chat, the context fetched for
the generation engine is the ten oldest messages — ascending order combined
with LIMIT — and differs from the ten most recent ones the claim (and the
method docstring) describe; in particular the newest message is excluded. -/
theorem C4_context_is_oldest_ten :
    _get_last_chat_messages tie0 dbC4 ("c") 10
      = .ok [⟨"Message 1", .user⟩, ⟨"Message 2", .user⟩, ⟨"Message 3", .user⟩,
        ⟨"Message 4", .user⟩, ⟨"Message 5", .user⟩, ⟨"Message 6", .user⟩,
        ⟨"Message 7", .user⟩, ⟨"Message 8", .user⟩, ⟨"Message 9", .user⟩,
        ⟨"Message 10", .user⟩] ∧
    ¬ _get_last_chat_messages tie0 dbC4 ("c") 10
      = .ok [⟨"Message 2", .user⟩, ⟨"Message 3", .user⟩, ⟨"Message 4", .user⟩,
        ⟨"Message 5", .user⟩, ⟨"Message 6", .user⟩, ⟨"Message 7", .user⟩,
        ⟨"Message 8", .user⟩, ⟨"Message 9", .user⟩, ⟨"Message 10", .user⟩,
        ⟨"Message 11", .user⟩] := by decide

/-- Helper: the range check accepts exactly the claimed bounds. -/
theorem validate_ok_iff (md : MessageReplyMetadataCreate) (content : String) :
    md.validate content = .ok () ↔
      0 ≤ md.start_index ∧ md.start_index < md.end_index ∧
        md.end_index ≤ (content.length : Int) := by
  unfold MessageReplyMetadataCreate.validate
  by_cases h1 : md.start_index ≥ md.end_index
  · rw [if_pos h1]
    constructor
    · intro h
      exact absurd h (by simp)
    · intro h
      exfalso
      omega
  · rw [if_neg h1]
    by_cases h2 : md.end_index > (content.length : Int)
    · rw [if_pos h2]
      constructor
      · intro h
        exact absurd h (by simp)
      · intro h
        exfalso
        omega
    · rw [if_neg h2]
      by_cases h3 : md.start_index < 0
      · rw [if_pos h3]
        constructor
        · intro h
          exact absurd h (by simp)
        · intro h
          exfalso
          omega
      · rw [if_neg h3]
        constructor
        · intro _
          omega
        · intro _
          rfl

/-- Helper: the range check either accepts or fails with
`InvalidReplyRangeError` on its own indices. -/
theorem validate_cases (md : MessageReplyMetadataCreate) (content : String) :
    md.validate content = .ok () ∨
      md.validate content
        = .error (.invalidReplyRange md.start_index md.end_index) := by
  unfold MessageReplyMetadataCreate.validate
  split_ifs <;> simp

/-- C5: reply-range validation passes exactly when
0 ≤ start_index < end_index ≤ len(parent content); otherwise the reply request
is rejected with `InvalidReplyRangeError` (HTTP 400) before any mutation, so
the database is returned unchanged — zero rows written. -/
theorem C5_range_validation_and_rejection :
    (∀ (md : MessageReplyMetadataCreate) (content : String),
      md.validate content = .ok () ↔
        0 ≤ md.start_index ∧ md.start_index < md.end_index ∧
          md.end_index ≤ (content.length : Int)) ∧
    (∀ (db : DB) (chat_id message_id : String) (reply_data : MessageReplyCreate)
        (reply_id md_id : String) (now : Nat) (orig : Message),
      chatExists db chat_id = true →
      get_message db chat_id message_id = .ok orig →
      ¬ (0 ≤ reply_data.reply_metadata.start_index ∧
          reply_data.reply_metadata.start_index < reply_data.reply_metadata.end_index ∧
          reply_data.reply_metadata.end_index ≤ (orig.content.length : Int)) →
      _create_message_reply db chat_id message_id reply_data reply_id md_id now
        = (db, .error (.invalidReplyRange reply_data.reply_metadata.start_index
            reply_data.reply_metadata.end_index)) ∧
      Err.status (.invalidReplyRange reply_data.reply_metadata.start_index
          reply_data.reply_metadata.end_index) = 400) := by
  refine ⟨validate_ok_iff, ?_⟩
  intro db chat_id message_id rd reply_id md_id now orig hchat hmsg hinv
  have hv : rd.reply_metadata.validate orig.content
      = .error (.invalidReplyRange rd.reply_metadata.start_index
          rd.reply_metadata.end_index) := by
    rcases validate_cases rd.reply_metadata orig.content with hok | he
    · exact absurd ((validate_ok_iff rd.reply_metadata orig.content).mp hok) hinv
    · exact he
  constructor
  · unfold _create_message_reply
    simp only [hchat, eq_self_iff_true, if_true, hmsg, hv]
  · rfl

/-- Witness for C5: the out-of-bounds reply of the repository's
`test_reply_with_invalid_range` — `end_index` 100 against the 5-character
parent content — is rejected with 400 and writes nothing. -/
theorem C5_range_validation_and_rejection_witness :
    _create_message_reply dbC5 ("c1") ("m1")
        ⟨"Reply message", .ai, ⟨0, 100, "m1"⟩⟩ ("r1") ("md1") 2
      = (dbC5, .error (.invalidReplyRange 0 100)) ∧
    Err.status (.invalidReplyRange 0 100) = 400 :=
  C5_range_validation_and_rejection.2 dbC5 ("c1") ("m1")
    ⟨"Reply message", .ai, ⟨0, 100, "m1"⟩⟩ ("r1") ("md1") 2
    ⟨"m1", "c1", "Short", .user, 1⟩ (by decide) (by decide) (by decide)

/-- Helper: for every way the source ends and every persistence result, the
terminator chunk is emitted exactly when no exception escapes. -/
theorem terminatorChunks_escapedError (message_id : String)
    (outcome : StreamOutcome) (pe : Option Err) :
    (terminatorChunks message_id outcome pe = [⟨"", true, some message_id⟩]
      ∧ escapedError outcome pe = none)
    ∨ (terminatorChunks message_id outcome pe = []
      ∧ ∃ e, escapedError outcome pe = some e) := by
  cases outcome <;> cases pe <;> simp [terminatorChunks, escapedError]

/-- Helper: the frames of one stream-and-persist block end in exactly one
final frame — the terminator chunk when no exception escaped, the error frame
carrying the escaped exception otherwise. -/
theorem streamAndPersist_frames (db : DB) (chat_id message_id : String)
    (frags : List String) (outcome : StreamOutcome) (now : Nat) :
    ∃ pre f,
      sseFrames (streamAndPersist db chat_id message_id frags outcome now)
          = pre ++ [f]
        ∧ f.isFinal = true ∧ (∀ g ∈ pre, g.isFinal = false)
        ∧ ((streamAndPersist db chat_id message_id frags outcome now).error = none →
            f = .data ⟨"", true, some message_id⟩)
        ∧ (∀ e, (streamAndPersist db chat_id message_id frags outcome now).error
              = some e → f = .errorFrame e) := by
  have hchunks : (streamAndPersist db chat_id message_id frags outcome now).chunks
      = (receivedFragments frags outcome).map
          (fun s => StreamChunk.mk s false (some message_id))
        ++ terminatorChunks message_id outcome
            (persistFinally db chat_id message_id
              (pyStrip (String.join (receivedFragments frags outcome))) now).2 := rfl
  have herr : (streamAndPersist db chat_id message_id frags outcome now).error
      = escapedError outcome
          (persistFinally db chat_id message_id
            (pyStrip (String.join (receivedFragments frags outcome))) now).2 := rfl
  rcases terminatorChunks_escapedError message_id outcome
      (persistFinally db chat_id message_id
        (pyStrip (String.join (receivedFragments frags outcome))) now).2 with
    ⟨ht, he⟩ | ⟨ht, e, he⟩
  · refine ⟨(receivedFragments frags outcome).map
        (fun s => SSEFrame.data ⟨s, false, some message_id⟩),
      .data ⟨"", true, some message_id⟩, ?_, rfl, ?_, fun _ => rfl, ?_⟩
    · rw [sseFrames, hchunks, ht, herr, he]
      simp [List.map_append, List.map_map, Function.comp]
    · intro g hg
      simp only [List.mem_map] at hg
      obtain ⟨s, _, rfl⟩ := hg
      rfl
    · rw [herr, he]
      simp
  · refine ⟨(receivedFragments frags outcome).map
        (fun s => SSEFrame.data ⟨s, false, some message_id⟩),
      .errorFrame e, ?_, rfl, ?_, ?_, ?_⟩
    · rw [sseFrames, hchunks, ht, herr, he]
      simp [List.map_map, Function.comp]
    · intro g hg
      simp only [List.mem_map] at hg
      obtain ⟨s, _, rfl⟩ := hg
      rfl
    · rw [herr, he]
      simp
    · intro e2 he2
      rw [herr, he] at he2
      injection he2 with h
      rw [h]

/-- C6: the consumer-visible SSE sequence of every streaming invocation —
send or reply, complete or interrupted, including failures before the stream
begins — contains exactly one final frame and it is the last one: the
terminator chunk with empty content and the pre-allocated message id when the
generator finished without error, and on any failure the error frame carrying
the escaped exception instead of the normal terminator. -/
theorem C6_single_final_frame (tie : String → Nat) (db : DB)
    (chat_id message_id : String) (user_message_data : MessageCreate)
    (reply_data : MessageReplyCreate)
    (user_id ai_id reply_id md_id reply_ai_id : String)
    (now_user now_ai now_reply now_reply_ai : Nat)
    (backend_chunks reply_backend_chunks : List String)
    (outcome reply_outcome : StreamOutcome) :
    (∃ pre f,
      generate_sse_stream tie db chat_id user_message_data user_id ai_id
          now_user now_ai backend_chunks outcome = pre ++ [f]
        ∧ f.isFinal = true ∧ (∀ g ∈ pre, g.isFinal = false)
        ∧ ((create_message_with_streaming_response tie db chat_id user_message_data
              user_id ai_id now_user now_ai backend_chunks outcome).error = none →
            f = .data ⟨"", true, some ai_id⟩)
        ∧ (∀ e, (create_message_with_streaming_response tie db chat_id
              user_message_data user_id ai_id now_user now_ai backend_chunks
              outcome).error = some e → f = .errorFrame e)) ∧
    (∃ pre f,
      generate_reply_sse_stream tie db chat_id message_id reply_data
          reply_id md_id reply_ai_id now_reply now_reply_ai
          reply_backend_chunks reply_outcome = pre ++ [f]
        ∧ f.isFinal = true ∧ (∀ g ∈ pre, g.isFinal = false)
        ∧ ((reply_to_message_with_streaming_response tie db chat_id message_id
              reply_data reply_id md_id reply_ai_id now_reply now_reply_ai
              reply_backend_chunks reply_outcome).error = none →
            f = .data ⟨"", true, some reply_ai_id⟩)
        ∧ (∀ e, (reply_to_message_with_streaming_response tie db chat_id
              message_id reply_data reply_id md_id reply_ai_id now_reply
              now_reply_ai reply_backend_chunks reply_outcome).error = some e →
            f = .errorFrame e)) := by
  constructor
  · unfold generate_sse_stream create_message_with_streaming_response
    rcases h1 : _create_message db chat_id user_message_data user_id now_user with
      ⟨db1, e1 | m1⟩
    · simp only [h1]
      exact ⟨[], .errorFrame e1, rfl, rfl, by simp, by simp,
        fun e9 he9 => congrArg SSEFrame.errorFrame (Option.some.inj he9)⟩
    · simp only [h1]
      rcases h2 : _get_last_chat_messages tie db1 chat_id 10 with e2 | ctx
      · simp only [h2]
        exact ⟨[], .errorFrame e2, rfl, rfl, by simp, by simp,
        fun e9 he9 => congrArg SSEFrame.errorFrame (Option.some.inj he9)⟩
      · simp only [h2]
        exact streamAndPersist_frames db1 chat_id ai_id
          (_stream_ai_response backend_chunks) outcome now_ai
  · unfold generate_reply_sse_stream reply_to_message_with_streaming_response
    rcases h1 : _create_message_reply db chat_id message_id reply_data
        reply_id md_id now_reply with ⟨db1, e1 | m1⟩
    · simp only [h1]
      exact ⟨[], .errorFrame e1, rfl, rfl, by simp, by simp,
        fun e9 he9 => congrArg SSEFrame.errorFrame (Option.some.inj he9)⟩
    · simp only [h1]
      rcases h2 : get_message db1 chat_id message_id with e2 | orig
      · simp only [h2]
        exact ⟨[], .errorFrame e2, rfl, rfl, by simp, by simp,
        fun e9 he9 => congrArg SSEFrame.errorFrame (Option.some.inj he9)⟩
      · simp only [h2]
        rcases h3 : _get_reply_chain tie db1 chat_id message_id 10 now_reply with
          e3 | chain
        · simp only [h3]
          exact ⟨[], .errorFrame e3, rfl, rfl, by simp, by simp,
        fun e9 he9 => congrArg SSEFrame.errorFrame (Option.some.inj he9)⟩
        · simp only [h3]
          rcases h4 : chain.getLast? with _ | last_turn
          · simp only [h4]
            exact ⟨[], .errorFrame .indexError, rfl, rfl, by simp, by simp,
              fun e9 he9 => congrArg SSEFrame.errorFrame (Option.some.inj he9)⟩
          · simp only [h4]
            exact streamAndPersist_frames db1 chat_id reply_ai_id
              (_stream_ai_response reply_backend_chunks) reply_outcome now_reply_ai

/-- Witness for C6 at concrete send and reply invocations. -/
theorem C6_single_final_frame_witness :
    (∃ pre f,
      generate_sse_stream tie0 dbC1w ("c") ⟨"Hello", .user⟩ ("u1") ("a1") 1 2
          ["Hi"] (.interrupted 1) = pre ++ [f]
        ∧ f.isFinal = true ∧ (∀ g ∈ pre, g.isFinal = false)
        ∧ ((create_message_with_streaming_response tie0 dbC1w ("c") ⟨"Hello", .user⟩
              ("u1") ("a1") 1 2 ["Hi"] (.interrupted 1)).error = none →
            f = .data ⟨"", true, some "a1"⟩)
        ∧ (∀ e, (create_message_with_streaming_response tie0 dbC1w ("c")
              ⟨"Hello", .user⟩ ("u1") ("a1") 1 2 ["Hi"]
              (.interrupted 1)).error = some e → f = .errorFrame e)) ∧
    (∃ pre f,
      generate_reply_sse_stream tie0 dbC1w ("c") ("m0") ⟨"Re", .user, ⟨0, 1, "m0"⟩⟩
          ("r1") ("md1") ("a2") 3 4 ["Yo"] .completed = pre ++ [f]
        ∧ f.isFinal = true ∧ (∀ g ∈ pre, g.isFinal = false)
        ∧ ((reply_to_message_with_streaming_response tie0 dbC1w ("c") ("m0")
              ⟨"Re", .user, ⟨0, 1, "m0"⟩⟩ ("r1") ("md1") ("a2") 3 4 ["Yo"]
              .completed).error = none →
            f = .data ⟨"", true, some "a2"⟩)
        ∧ (∀ e, (reply_to_message_with_streaming_response tie0 dbC1w ("c") ("m0")
              ⟨"Re", .user, ⟨0, 1, "m0"⟩⟩ ("r1") ("md1") ("a2") 3 4 ["Yo"]
              .completed).error = some e → f = .errorFrame e)) :=
  C6_single_final_frame tie0 dbC1w ("c") ("m0") ⟨"Hello", .user⟩
    ⟨"Re", .user, ⟨0, 1, "m0"⟩⟩ ("u1") ("a1") ("r1") ("md1") ("a2") 1 2 3 4
    ["Hi"] ["Yo"] (.interrupted 1) .completed

/-- C7 (code bug): on a three-message chat, the reply-chain request for the
newest message — whose chain would have length 1 and then be backfilled with
the two older messages — instead fails with `AttributeError` at the first page
fetch, so the backfill step is never reached. -/
theorem C7_backfill_never_runs :
    _get_reply_chain tie0 dbC7 ("c") ("m3") 10 4
      = .error (.attributeError ("messages")) := by decide

/-- C8 counterexample: on a 101-character text the inline truncation yields a
103-character note (50 + 3 + 50), so the truncated form is not of at most 100
characters as claimed. -/
theorem C8_counterexample :
    100 < longText.length ∧ (truncateForNote longText).length = 103 ∧
    ¬ (truncateForNote longText).length ≤ 100 := by decide

/-- C8 amended: text of at most 100 characters is used verbatim; longer text
is replaced by its first 50 characters, an ellipsis, and its last 50
characters — a truncated form of exactly 103 characters. -/
theorem C8_truncation_bound (s : String) :
    (s.length ≤ 100 → truncateForNote s = s) ∧
    (100 < s.length →
      truncateForNote s = pyPrefix 50 s ++ "..." ++ pySuffix 50 s ∧
        (truncateForNote s).length = 103) := by
  constructor
  · intro h
    unfold truncateForNote
    rw [if_neg (by omega)]
  · intro h
    have ht : truncateForNote s = pyPrefix 50 s ++ "..." ++ pySuffix 50 s := by
      unfold truncateForNote
      rw [if_pos (by omega)]
    refine ⟨ht, ?_⟩
    rw [ht]
    have h1 : (pyPrefix 50 s).length = (s.data.take 50).length := rfl
    have h2 : (pySuffix 50 s).length = (s.data.drop (s.length - 50)).length := rfl
    have h3 : ("..." : String).length = 3 := rfl
    have hL : s.length = s.data.length := rfl
    rw [String.length_append, String.length_append, h1, h2, h3,
      List.length_take, List.length_drop]
    omega

/-- Witness for C8: a short text kept verbatim and the long text truncated to
103 characters. -/
theorem C8_truncation_bound_witness :
    truncateForNote ("hi") = "hi" ∧ (truncateForNote longText).length = 103 :=
  ⟨(C8_truncation_bound ("hi")).1 (by decide),
    ((C8_truncation_bound longText).2 (by decide)).2⟩

/-- C9 counterexample: two messages share one `created_at`; the code orders by
`created_at` alone, so each page read may observe a different storage order.
Page 0 of size 1 under one admissible order and page 1 of size 1 under the
other both return the first message: their concatenation repeats it and never
contains the second message, although it is stored in the chat — pagination
is then not a partition. -/
theorem C9_counterexample :
    get_chat_messages tieA dbC9 ("c") 0 1 false = .ok [toMessageResponse dbC9 msgA] ∧
    get_chat_messages tieB dbC9 ("c") 1 1 false = .ok [toMessageResponse dbC9 msgA] ∧
    toMessageResponse dbC9 msgB
      ∉ [toMessageResponse dbC9 msgA] ++ [toMessageResponse dbC9 msgA] ∧
    msgB ∈ chatMessages dbC9 ("c") := by decide

/-- Helper: concatenating consecutive take/drop pages of any list reproduces
the list once the pages cover its length. -/
theorem flatten_pages {α : Type} (size : Nat) (_hsize : 0 < size) :
    ∀ (pages : Nat) (xs : List α), xs.length ≤ pages * size →
      ((List.range pages).map (fun k => (xs.drop (k * size)).take size)).flatten
        = xs := by
  intro pages
  induction pages with
  | zero =>
    intro xs h
    have hx : xs = [] := List.eq_nil_of_length_eq_zero (by omega)
    simp [hx]
  | succ n ih =>
    intro xs h
    rw [List.range_succ_eq_map]
    simp only [List.map_cons, List.flatten_cons, List.map_map]
    have hcomp : ((fun k => (xs.drop (k * size)).take size) ∘ Nat.succ)
        = fun k => ((xs.drop size).drop (k * size)).take size := by
      funext k
      show (xs.drop (Nat.succ k * size)).take size
        = ((xs.drop size).drop (k * size)).take size
      rw [List.drop_drop, Nat.succ_mul, Nat.add_comm (k * size) size]
    have hlen : (xs.drop size).length ≤ n * size := by
      rw [List.length_drop]
      have hs : (n + 1) * size = n * size + size := by ring
      omega
    rw [hcomp, ih (xs.drop size) hlen]
    simp [List.take_append_drop]

/-- Helper: under a fixed storage order, one page of the listing is the
take/drop window of the full listing. -/
theorem pageAt_eq (tie : String → Nat) (db : DB) (chat_id : String)
    (skip limit : Nat) (hchat : chatExists db chat_id = true) :
    pageAt tie db chat_id skip limit
      = ((fullListing tie db chat_id).drop skip).take limit := by
  unfold pageAt get_chat_messages fullListing
  rw [hchat]
  simp [Except.toOption, List.map_take, List.map_drop]

/-- C9 amended: provided every page read observes one fixed storage order
extending `created_at` (a deterministic tie-break, as when timestamps are
distinct), concatenating the consecutive ascending pages of the listing
reproduces the full chronologically ordered message list with no gaps and no
overlaps. -/
theorem C9_pages_partition (tie : String → Nat) (db : DB) (chat_id : String)
    (size pages : Nat) (hsize : 0 < size)
    (hchat : chatExists db chat_id = true)
    (hcover : (chatMessages db chat_id).length ≤ pages * size) :
    ((List.range pages).map (fun k => pageAt tie db chat_id (k * size) size)).flatten
      = fullListing tie db chat_id := by
  have hlen : (fullListing tie db chat_id).length ≤ pages * size := by
    unfold fullListing orderByCreatedAt
    rw [List.length_map]
    simpa [List.length_insertionSort] using hcover
  have hfun : (fun k => pageAt tie db chat_id (k * size) size)
      = fun k => ((fullListing tie db chat_id).drop (k * size)).take size :=
    funext (fun k => pageAt_eq tie db chat_id (k * size) size hchat)
  rw [hfun]
  exact flatten_pages size hsize pages (fullListing tie db chat_id) hlen

/-- Witness for C9 at a three-message chat read in pages of two. -/
theorem C9_pages_partition_witness :
    ((List.range 2).map (fun k => pageAt tie0 dbC9w ("c") (k * 2) 2)).flatten
      = fullListing tie0 dbC9w ("c") :=
  C9_pages_partition tie0 dbC9w ("c") 2 2 (by decide) (by decide) (by decide)

/-- C10 (code bug): on a chat whose stored metadata rows form a parent cycle,
the walk does stop — but by raising `AttributeError` at the first page fetch,
before a single loop iteration completes, so the claimed strictly-increasing
page offset and first-empty-page exit are never exercised. -/
theorem C10_cyclic_walk_stops_by_crash :
    _get_reply_chain tie0 dbC10 ("c") ("ma") 10 9
      = .error (.attributeError ("messages")) := by decide

end ChatReplies
